import Mathlib

/-!
A verification development for the "what-to-do-tmrw" agent.

The Python sources are shallowly embedded: dictionaries with a fixed key set
become structures, mutation becomes explicit state passing, exceptions become
`Except`/`Option` values, and the two LLM calls plus the HTTP clients (which
are external collaborators) become function parameters of the embedded
operations.  Calendar dates are modelled as natural numbers counting days
from a fixed epoch that falls on a Monday, so that `d % 7` agrees with
the Python `date.weekday()` convention (Monday = 0, ..., Saturday = 5,
Sunday = 6) and `timedelta(days = k)` is addition by `k`.
-/

namespace WhatToDo

/-! ## Date Resolver (src/utils/date_utils.py, duplicated in
src/mcp_server.py `parse_target_date`) -/

/-- Embedding of the Python `str.lower()` method (the sources only ever lower-case
ASCII keywords), written over the character list so that concrete instances
evaluate inside the kernel. -/
def pyLower (s : String) : String := String.mk (s.data.map Char.toLower)

/-- Result of `parse_target_date`: the Python function builds
`{"date": None, "description": target_date or "tomorrow"}` and then fills
the `date` field in every branch. -/
structure DateInfo where
  date : Option Nat
  description : String
deriving Repr, DecidableEq

/-- Embedding of `parse_target_date(target_date)`.

`strptime` stands for the CPython call `datetime.strptime(s, "%Y-%m-%d")`, the one
external library call of the function: `some d` models a successful strict
parse, `none` models the `ValueError` branch.  `today` is the implicit
reference date `datetime.now().date()`.  `target_date : Option String`
models the nullable argument; the Python falsiness test `not target_date`
is true for `None` and for the empty string. -/
def parse_target_date (strptime : String → Option Nat) (today : Nat)
    (target_date : Option String) : DateInfo :=
  match target_date with
  | none => { date := some (today + 1), description := "tomorrow" }
  | some s =>
    let desc := if s = "" then "tomorrow" else s
    if s = "" ∨ pyLower s = "tomorrow" ∨ pyLower s = "tmrw" then
      { date := some (today + 1), description := desc }
    else if pyLower s = "today" then
      { date := some today, description := desc }
    else if pyLower s = "this weekend" ∨ pyLower s = "weekend" then
      let days_until_saturday : Nat := ((5 - (today % 7 : Int)) % 7).toNat
      if days_until_saturday = 0 ∧ today % 7 = 5 then
        { date := some today, description := desc }
      else
        { date := some (today + (if days_until_saturday > 0 then days_until_saturday else 6)),
          description := desc }
    else if pyLower s = "next week" ∨ pyLower s = "next monday" then
      let days_until_monday : Nat := ((7 - (today % 7 : Int)) % 7).toNat
      { date := some (today + (if days_until_monday > 0 then days_until_monday else 7)),
        description := desc }
    else
      match strptime s with
      | some d => { date := some d, description := desc }
      | none => { date := some (today + 1), description := "tomorrow (default)" }

example : parse_target_date (fun _ => none) 0 none = ⟨some 1, "tomorrow"⟩ := by decide
example : parse_target_date (fun _ => none) 3 (some "Today") = ⟨some 3, "Today"⟩ := by decide
example : parse_target_date (fun _ => none) 0 (some "junk") = ⟨some 1, "tomorrow (default)"⟩ := by
  decide
example : parse_target_date (fun _ => some 42) 0 (some "2025-01-01") = ⟨some 42, "2025-01-01"⟩ := by
  decide
-- day 5 is a Saturday: "weekend" resolves to the same day
example : parse_target_date (fun _ => none) 5 (some "weekend") = ⟨some 5, "weekend"⟩ := by decide
-- day 6 is a Sunday: next Saturday is day 12
example : parse_target_date (fun _ => none) 6 (some "weekend") = ⟨some 12, "weekend"⟩ := by decide
-- day 7 is a Monday: "next monday" is seven days out
example : parse_target_date (fun _ => none) 7 (some "next monday") = ⟨some 14, "next monday"⟩ := by
  decide

/-- Totality of the embedded resolver: every branch stores a concrete date. -/
theorem parse_target_date_isSome (strptime : String → Option Nat) (today : Nat)
    (td : Option String) : (parse_target_date strptime today td).date.isSome = true := by
  match td with
  | none => rfl
  | some s =>
    simp only [parse_target_date]
    split_ifs <;> first
      | rfl
      | (cases h : strptime s <;> simp [h])

/-- C7: an input that matches no date keyword and fails the strict
`YYYY-MM-DD` parse resolves to `today + 1` with the distinguishing fallback
description `"tomorrow (default)"`; and for every input (including the
null and empty cases) the resolver returns normally with a date — in the
source no exception escapes because the lone `ValueError` is caught. -/
theorem parse_target_date_fallback_and_total (strptime : String → Option Nat)
    (today : Nat) (s : String)
    (h0 : ¬ (s = "" ∨ pyLower s = "tomorrow" ∨ pyLower s = "tmrw"))
    (h1 : ¬ pyLower s = "today")
    (h2 : ¬ (pyLower s = "this weekend" ∨ pyLower s = "weekend"))
    (h3 : ¬ (pyLower s = "next week" ∨ pyLower s = "next monday"))
    (h4 : strptime s = none) :
    parse_target_date strptime today (some s) =
      { date := some (today + 1), description := "tomorrow (default)" } ∧
    ∀ td, (parse_target_date strptime today td).date.isSome = true := by
  refine ⟨?_, fun td => parse_target_date_isSome strptime today td⟩
  simp only [parse_target_date, if_neg h0, if_neg h1, if_neg h2, if_neg h3, h4]

/-- Witness for C7 at the concrete input "no date here" with a parser that
rejects everything. -/
theorem parse_target_date_fallback_and_total_witness :
    parse_target_date (fun _ => none) 10 (some "no date here") =
      { date := some 11, description := "tomorrow (default)" } ∧
    ∀ td, (parse_target_date (fun _ => none) 10 td).date.isSome = true :=
  parse_target_date_fallback_and_total (fun _ => none) 10 "no date here"
    (by decide) (by decide) (by decide) (by decide) rfl

/-- The weekend branch of `parse_target_date` produces the next Saturday
(weekday 5), or `today` itself when `today` is a Saturday. -/
theorem parse_weekend_case (strptime : String → Option Nat) (today : Nat) (s : String)
    (h0 : ¬ (s = "" ∨ pyLower s = "tomorrow" ∨ pyLower s = "tmrw"))
    (h1 : ¬ pyLower s = "today")
    (h2 : pyLower s = "this weekend" ∨ pyLower s = "weekend") :
    ∃ d, (parse_target_date strptime today (some s)).date = some d ∧ d % 7 = 5 ∧
      ((today % 7 = 5 ∧ d = today) ∨ (today % 7 ≠ 5 ∧ today < d ∧ d < today + 7)) := by
  simp only [parse_target_date, if_neg h0, if_neg h1, if_pos h2]
  split_ifs <;> exact ⟨_, rfl, by omega, by omega⟩

/-- The next-week branch of `parse_target_date` produces the next Monday
(weekday 0) strictly after `today`, seven days out when `today` is a Monday. -/
theorem parse_monday_case (strptime : String → Option Nat) (today : Nat) (s : String)
    (h0 : ¬ (s = "" ∨ pyLower s = "tomorrow" ∨ pyLower s = "tmrw"))
    (h1 : ¬ pyLower s = "today")
    (h2 : ¬ (pyLower s = "this weekend" ∨ pyLower s = "weekend"))
    (h3 : pyLower s = "next week" ∨ pyLower s = "next monday") :
    ∃ d, (parse_target_date strptime today (some s)).date = some d ∧ d % 7 = 0 ∧
      today < d ∧ d ≤ today + 7 ∧ (today % 7 = 0 → d = today + 7) := by
  simp only [parse_target_date, if_neg h0, if_neg h1, if_neg h2, if_pos h3]
  split_ifs <;> exact ⟨_, rfl, by omega, by omega, by omega, by omega⟩

/-- The property C8 states for the weekend keywords: the resolved day is a
Saturday, namely `today` itself when `today` is a Saturday and otherwise the
unique Saturday strictly between `today` and `today + 7`. -/
def NextSaturdayResolved (strptime : String → Option Nat) (today : Nat) (s : String) : Prop :=
  ∃ d, (parse_target_date strptime today (some s)).date = some d ∧ d % 7 = 5 ∧
    ((today % 7 = 5 ∧ d = today) ∨ (today < d ∧ d < today + 7))

/-- The property C8 states for the next-week keywords: the resolved day is
the unique Monday strictly after `today` and at most seven days out, which
equals `today + 7` exactly when `today` is itself a Monday. -/
def NextMondayResolved (strptime : String → Option Nat) (today : Nat) (s : String) : Prop :=
  ∃ d, (parse_target_date strptime today (some s)).date = some d ∧ d % 7 = 0 ∧
    today < d ∧ d ≤ today + 7 ∧ d = today + (7 - today % 7)

/-- C8: "this weekend"/"weekend" resolve to the next Saturday strictly after
`today` unless `today` is itself a Saturday (weekday 5), in which case they
resolve to `today`; "next week"/"next monday" resolve to the next Monday
(weekday 0) strictly after `today`, which is `today + 7` when `today` is
itself a Monday. -/
theorem parse_target_date_weekend_and_monday (strptime : String → Option Nat)
    (today : Nat) :
    NextSaturdayResolved strptime today "this weekend" ∧
    NextSaturdayResolved strptime today "weekend" ∧
    NextMondayResolved strptime today "next week" ∧
    NextMondayResolved strptime today "next monday" := by
  have wk : ∀ s, ¬ (s = "" ∨ pyLower s = "tomorrow" ∨ pyLower s = "tmrw") →
      ¬ pyLower s = "today" → (pyLower s = "this weekend" ∨ pyLower s = "weekend") →
      NextSaturdayResolved strptime today s := by
    intro s h0 h1 h2
    obtain ⟨d, hd, hmod, hcase⟩ := parse_weekend_case strptime today s h0 h1 h2
    exact ⟨d, hd, hmod, by omega⟩
  have mo : ∀ s, ¬ (s = "" ∨ pyLower s = "tomorrow" ∨ pyLower s = "tmrw") →
      ¬ pyLower s = "today" → ¬ (pyLower s = "this weekend" ∨ pyLower s = "weekend") →
      (pyLower s = "next week" ∨ pyLower s = "next monday") →
      NextMondayResolved strptime today s := by
    intro s h0 h1 h2 h3
    obtain ⟨d, hd, hmod, hlt, hle, himp⟩ := parse_monday_case strptime today s h0 h1 h2 h3
    exact ⟨d, hd, hmod, hlt, hle, by omega⟩
  exact ⟨wk _ (by decide) (by decide) (by decide), wk _ (by decide) (by decide) (by decide),
    mo _ (by decide) (by decide) (by decide) (by decide),
    mo _ (by decide) (by decide) (by decide) (by decide)⟩

/-! ## Context Accumulator (src/utils/context_builders.py)

The conversation-context dictionary is embedded as a structure, polymorphic
in the type `ρ` of stored tool results (Python stores arbitrary JSON
dictionaries there).  Keys that are absent until first written
(`weather_data`, `activity_data`, `activity_data_list`) become `Option`
fields initialised to `none`. -/

/-- The query-analysis dictionary produced by intent extraction.  `error`
models presence of an `"error"` key; `location`/`time_context` are `none`
when the key is absent or the value is JSON null (Python treats both the
same through `.get`). -/
structure QueryAnalysis where
  error : Option String
  location : Option String
  time_context : Option String
deriving Repr, DecidableEq

/-- Python falsiness of an optional string: `None`, a missing key and the
empty string are all falsy. -/
def pyFalsy (o : Option String) : Bool :=
  match o with
  | none => true
  | some s => s == ""

/-- The mutable per-conversation context dictionary. -/
structure AgentContext (ρ : Type) where
  query : String
  query_analysis : QueryAnalysis
  tools_called : List String
  loop_count : Nat
  max_loops : Nat
  weather_data : Option ρ
  activity_data : Option ρ
  activity_data_list : Option (List ρ)

/-- `AgentContextBuilder.build_initial_context(query, query_analysis, max_loops)`. -/
def build_initial_context (ρ : Type) (query : String) (query_analysis : QueryAnalysis)
    (max_loops : Nat) : AgentContext ρ :=
  { query := query, query_analysis := query_analysis, tools_called := [],
    loop_count := 0, max_loops := max_loops,
    weather_data := none, activity_data := none, activity_data_list := none }

/-- `AgentContextBuilder.add_weather_data(context, weather_result)`: overwrite
the stored weather result, then append `"weather_api"` to `tools_called`
only if it is not already present. -/
def add_weather_data {ρ : Type} (context : AgentContext ρ) (weather_result : ρ) :
    AgentContext ρ :=
  { context with
    weather_data := some weather_result,
    tools_called :=
      if "weather_api" ∈ context.tools_called then context.tools_called
      else context.tools_called ++ ["weather_api"] }

/-- `AgentContextBuilder.add_activity_data(context, activity_result)`: create
the accumulator list on first use, append the result, keep the latest result
for decision making, and always append `"activity_api"` to `tools_called`. -/
def add_activity_data {ρ : Type} (context : AgentContext ρ) (activity_result : ρ) :
    AgentContext ρ :=
  { context with
    activity_data_list := some (context.activity_data_list.getD [] ++ [activity_result]),
    activity_data := some activity_result,
    tools_called := context.tools_called ++ ["activity_api"] }

/-- `AgentContextBuilder.increment_loop_count(context)`. -/
def increment_loop_count {ρ : Type} (context : AgentContext ρ) : AgentContext ρ :=
  { context with loop_count := context.loop_count + 1 }

/-- `ValidationContextBuilder.should_continue_loop(context)`. -/
def should_continue_loop {ρ : Type} (context : AgentContext ρ) : Bool :=
  context.loop_count < context.max_loops

/-- Result dictionary of `validate_query_analysis`. -/
structure ValidationResult where
  valid : Bool
  error : Option String
deriving Repr, DecidableEq

/-- `ValidationContextBuilder.validate_query_analysis(query_analysis)`. -/
def validate_query_analysis (query_analysis : QueryAnalysis) : ValidationResult :=
  if query_analysis.error.isSome then
    { valid := false, error := query_analysis.error }
  else if pyFalsy query_analysis.location then
    { valid := false,
      error := some "I couldn\x27t determine which location you\x27re asking about. Please specify a city." }
  else { valid := true, error := none }

/-- Folding `add_weather_data` never changes `tools_called` once
`"weather_api"` is already recorded. -/
theorem foldl_add_weather_tools_frozen {ρ : Type} (ws : List ρ) :
    ∀ ctx : AgentContext ρ, "weather_api" ∈ ctx.tools_called →
      (ws.foldl add_weather_data ctx).tools_called = ctx.tools_called := by
  induction ws with
  | nil => intro ctx _; rfl
  | cons w ws ih =>
    intro ctx h
    have hstep : (add_weather_data ctx w).tools_called = ctx.tools_called := by
      simp [add_weather_data, if_pos h]
    calc ((w :: ws).foldl add_weather_data ctx).tools_called
        = (ws.foldl add_weather_data (add_weather_data ctx w)).tools_called := rfl
      _ = (add_weather_data ctx w).tools_called := ih _ (by rw [hstep]; exact h)
      _ = ctx.tools_called := hstep

/-- Folding `add_weather_data` stores the last result, keeping the previous
one only when the fold is empty. -/
theorem foldl_add_weather_data_last {ρ : Type} (ws : List ρ) :
    ∀ ctx : AgentContext ρ,
      (ws.foldl add_weather_data ctx).weather_data = ws.getLast?.or ctx.weather_data := by
  induction ws with
  | nil => intro ctx; rfl
  | cons w ws ih =>
    intro ctx
    have h1 : ((w :: ws).foldl add_weather_data ctx).weather_data
        = ws.getLast?.or (some w) := by
      rw [List.foldl_cons, ih]
      rfl
    rw [h1]
    cases hws : ws.getLast? with
    | some r =>
      have : (w :: ws).getLast? = some r := by
        cases ws with
        | nil => simp at hws
        | cons x xs => rw [List.getLast?_cons_cons, hws]
      rw [this]
      rfl
    | none =>
      have : ws = [] := by
        cases ws with
        | nil => rfl
        | cons x xs => simp_all [List.getLast?_isSome]
      subst this
      rfl

/-- C2: starting from a freshly initialised context, any sequence of
`record_weather` (`add_weather_data`) operations leaves exactly the most
recently recorded weather result (`none` only for the empty sequence) and
`"weather_api"` occurs at most once in `tools_called`, regardless of how
many calls were made. -/
theorem record_weather_latest_wins_append_once (ρ : Type) (q : String)
    (qa : QueryAnalysis) (m : Nat) (ws : List ρ) :
    (ws.foldl add_weather_data (build_initial_context ρ q qa m)).weather_data
        = ws.getLast? ∧
    ((ws.foldl add_weather_data (build_initial_context ρ q qa m)).tools_called).count
        "weather_api" ≤ 1 := by
  constructor
  · rw [foldl_add_weather_data_last]
    cases ws.getLast? <;> rfl
  · cases ws with
    | nil => simp [build_initial_context]
    | cons w ws =>
      have h1 : (add_weather_data (build_initial_context ρ q qa m) w).tools_called
          = ["weather_api"] := by
        simp [add_weather_data, build_initial_context]
      rw [List.foldl_cons, foldl_add_weather_tools_frozen ws _ (by rw [h1]; simp), h1]
      simp

/-- Folding `add_activity_data`: the accumulator gains exactly the folded
results in order, `tools_called` gains one `"activity_api"` per call, and the
convenience reference holds the last result. -/
theorem foldl_add_activity_data_spec {ρ : Type} (rs : List ρ) :
    ∀ ctx : AgentContext ρ,
      (rs.foldl add_activity_data ctx).activity_data_list.getD []
          = ctx.activity_data_list.getD [] ++ rs ∧
      (rs.foldl add_activity_data ctx).tools_called
          = ctx.tools_called ++ List.replicate rs.length "activity_api" ∧
      (rs.foldl add_activity_data ctx).activity_data = rs.getLast?.or ctx.activity_data := by
  induction rs with
  | nil => intro ctx; refine ⟨by simp, by simp, rfl⟩
  | cons r rs ih =>
    intro ctx
    obtain ⟨ihl, iht, ihd⟩ := ih (add_activity_data ctx r)
    refine ⟨?_, ?_, ?_⟩
    · rw [List.foldl_cons, ihl]
      simp [add_activity_data]
    · rw [List.foldl_cons, iht]
      simp [add_activity_data, List.replicate_succ]
    · rw [List.foldl_cons, ihd]
      cases hrs : rs.getLast? with
      | some x =>
        have : (r :: rs).getLast? = some x := by
          cases rs with
          | nil => simp at hrs
          | cons y ys => rw [List.getLast?_cons_cons, hrs]
        rw [this]
        rfl
      | none =>
        have : rs = [] := by
          cases rs with
          | nil => rfl
          | cons y ys => simp_all [List.getLast?_isSome]
        subst this
        rfl

/-- C5: starting from a freshly initialised context, N `record_activity`
(`add_activity_data`) calls leave exactly the N recorded results in call
order, exactly N occurrences of `"activity_api"` in `tools_called`, and the
latest-activity reference equal to the N-th (last) recorded result. -/
theorem record_activity_accumulates (ρ : Type) (q : String)
    (qa : QueryAnalysis) (m : Nat) (rs : List ρ) :
    (rs.foldl add_activity_data (build_initial_context ρ q qa m)).activity_data_list.getD []
        = rs ∧
    ((rs.foldl add_activity_data (build_initial_context ρ q qa m)).tools_called).count
        "activity_api" = rs.length ∧
    (rs.foldl add_activity_data (build_initial_context ρ q qa m)).activity_data
        = rs.getLast? := by
  obtain ⟨hl, ht, hd⟩ := foldl_add_activity_data_spec rs (build_initial_context ρ q qa m)
  refine ⟨?_, ?_, ?_⟩
  · rw [hl]; rfl
  · rw [ht]
    simp [build_initial_context, List.count_replicate]
  · rw [hd]
    cases rs.getLast? <;> rfl

/-! ## Activity records and the response-view deduplication
(src/utils/data_extractors.py `extract_unique_activities_for_response`,
inlined equivalently in src/agent.py `generate_final_response`) -/

/-- One activity record as produced by the activity tool.  The float rating
in `[0, 1]` is modelled as a rational number; no claim computes with it. -/
structure Activity where
  name : String
  category : String
  description : String
  rating : Option Rat
  source : String
deriving Repr, DecidableEq

/-- The `query_parameters` echo dictionary of an activity result. -/
structure ActivityQueryParams where
  weather_condition : String
  requested_activity_type : String
  resolved_activity_type : String
  category_filter : Option String
deriving Repr, DecidableEq

/-- An activity tool result.  An error value (`{"error": ...}` or
`{"success": false, "error": ...}`) is modelled with `success := false`;
`activity_data.get("success")` is falsy for both shapes. -/
structure ActivityResult where
  success : Bool
  error : Option String
  location : String
  query_parameters : ActivityQueryParams
  activities : List Activity
  total_results : Nat
  data_source : String
deriving Repr, DecidableEq

/-- The dictionaries appended to `unique_activities`: the source projects
each kept activity to exactly its name, category and description. -/
structure ActivitySummary where
  name : String
  category : String
  description : String
deriving Repr, DecidableEq

/-- The deduplication loop of `extract_unique_activities_for_response`:
`seen` models the `seen_names` set (as the list of names inserted so far);
an activity whose name was already seen is skipped, otherwise its summary
is appended and its name inserted. -/
def dedupActivitiesAux : List Activity → List String → List ActivitySummary
  | [], _ => []
  | a :: rest, seen =>
    if a.name ∈ seen then dedupActivitiesAux rest seen
    else { name := a.name, category := a.category, description := a.description } ::
      dedupActivitiesAux rest (a.name :: seen)

/-- `ActivityDataExtractor.extract_unique_activities_for_response
(activity_data_list, limit=8)`: concatenate the activity lists of the
successful results in call order, deduplicate by name keeping first
occurrences, and truncate to `limit`.  (The early return of the source for an
empty input list is subsumed: the fold of an empty list is `[]`.) -/
def extract_unique_activities_for_response (activity_data_list : List ActivityResult)
    (limit : Nat) : List ActivitySummary :=
  let all_activities := (activity_data_list.filter (fun r => r.success)).flatMap
    (fun r => r.activities)
  (dedupActivitiesAux all_activities []).take limit

/-- Modelled from the spec: first-seen-order deduplication of a list of
names ("the merged unique list is [A,B,C] in first-seen order").  Each name
keeps its first occurrence and later occurrences are erased. -/
def specFirstSeenDedup : List String → List String
  | [] => []
  | x :: xs => x :: specFirstSeenDedup (xs.filter (fun y => y ≠ x))
termination_by l => l.length
decreasing_by
  simp only [List.length_cons, Nat.lt_succ_iff]
  exact List.length_filter_le _ _

/-- The imperative dedup loop computes first-seen-order deduplication of
the names not yet seen. -/
theorem dedupActivitiesAux_names (l : List Activity) :
    ∀ seen : List String,
      (dedupActivitiesAux l seen).map (fun a => a.name)
        = specFirstSeenDedup ((l.map (fun a => a.name)).filter (fun n => n ∉ seen)) := by
  induction l with
  | nil => intro seen; simp [dedupActivitiesAux, specFirstSeenDedup]
  | cons a l ih =>
    intro seen
    by_cases h : a.name ∈ seen
    · have hp : (decide (a.name ∉ seen)) = false := by simp [h]
      simp only [dedupActivitiesAux, if_pos h, List.map_cons, List.filter_cons, hp,
        Bool.false_eq_true, if_false]
      exact ih seen
    · have hp : (decide (a.name ∉ seen)) = true := by simp [h]
      simp only [dedupActivitiesAux, if_neg h, List.map_cons, List.filter_cons, hp, if_true]
      rw [specFirstSeenDedup, ih (a.name :: seen)]
      have hf : List.filter (fun n => decide (n ∉ a.name :: seen))
            (List.map (fun a => a.name) l)
          = List.filter (fun y => decide (y ≠ a.name))
              (List.filter (fun n => decide (n ∉ seen)) (List.map (fun a => a.name) l)) := by
        rw [List.filter_filter]
        apply List.filter_congr
        intro x _
        simp [List.mem_cons, not_or]
      rw [hf]

/-- Every element of the spec-side dedup comes from the input list. -/
theorem specFirstSeenDedup_subset (l : List String) :
    ∀ x, x ∈ specFirstSeenDedup l → x ∈ l := by
  induction l using specFirstSeenDedup.induct with
  | case1 => intro x hx; simp [specFirstSeenDedup] at hx
  | case2 y ys ih =>
    intro x hx
    rw [specFirstSeenDedup] at hx
    rcases List.mem_cons.mp hx with rfl | hx
    · exact List.mem_cons_self _ _
    · exact List.mem_cons_of_mem _ (List.mem_of_mem_filter (ih x hx))

/-- The spec-side dedup never repeats a name. -/
theorem specFirstSeenDedup_nodup (l : List String) : (specFirstSeenDedup l).Nodup := by
  induction l using specFirstSeenDedup.induct with
  | case1 => rw [specFirstSeenDedup]; exact List.nodup_nil
  | case2 y ys ih =>
    rw [specFirstSeenDedup]
    refine List.nodup_cons.mpr ⟨fun hy => ?_, ih⟩
    have := specFirstSeenDedup_subset _ _ hy
    have := List.of_mem_filter this
    simp at this

/-- C6: the merged activity list used for the final response never repeats
a name (case-sensitive exact key), equals the first-seen-order
deduplication of the activities of the successful results in call order truncated
to 8 entries, and hence is capped at 8; in particular merging
`[A, B]` with `[B, C]` yields `[A, B, C]` of length 3. -/
theorem unique_activities_dedup_first_seen_capped (lst : List ActivityResult) :
    ((extract_unique_activities_for_response lst 8).map (fun a => a.name)).Nodup ∧
    (extract_unique_activities_for_response lst 8).length ≤ 8 ∧
    (extract_unique_activities_for_response lst 8).map (fun a => a.name)
      = (specFirstSeenDedup
          (((lst.filter (fun r => r.success)).flatMap (fun r => r.activities)).map
            (fun a => a.name))).take 8 ∧
    extract_unique_activities_for_response
        [{ success := true, error := none, location := "", query_parameters := ⟨"", "", "", none⟩,
           activities := [⟨"A", "c1", "d1", none, "s"⟩, ⟨"B", "c2", "d2", none, "s"⟩],
           total_results := 2, data_source := "foursquare" },
         { success := true, error := none, location := "", query_parameters := ⟨"", "", "", none⟩,
           activities := [⟨"B", "c3", "d3", none, "s"⟩, ⟨"C", "c4", "d4", none, "s"⟩],
           total_results := 2, data_source := "foursquare" }] 8
      = [⟨"A", "c1", "d1"⟩, ⟨"B", "c2", "d2"⟩, ⟨"C", "c4", "d4"⟩] := by
    have hnames : (extract_unique_activities_for_response lst 8).map (fun a => a.name)
        = (specFirstSeenDedup
            (((lst.filter (fun r => r.success)).flatMap (fun r => r.activities)).map
              (fun a => a.name))).take 8 := by
      unfold extract_unique_activities_for_response
      rw [List.map_take, dedupActivitiesAux_names]
      congr 2
      apply List.filter_eq_self.mpr
      intro x _
      simp
    refine ⟨?_, ?_, hnames, by decide⟩
    · have : ((extract_unique_activities_for_response lst 8).map (fun a => a.name)).Nodup := by
        rw [hnames]
        exact (List.take_sublist _ _).nodup (specFirstSeenDedup_nodup _)
      exact this
    · have h1 : (extract_unique_activities_for_response lst 8).length
          = ((extract_unique_activities_for_response lst 8).map (fun a => a.name)).length := by
        rw [List.length_map]
      rw [h1, hnames]
      exact List.length_take_le _ _

/-! ## Agent Loop Controller (src/agent.py `WhatToDoAgent.agent_loop`)

The two LLM calls (`decide_next_action`) and the two MCP tools become
function parameters.  Tool-call parameter dictionaries are modelled as
string association lists (only string values ever matter to the loop).
One `LoopEvent` is recorded per executed loop iteration, so the event
trace makes "one decision and one tool dispatch per iteration" and the
iteration count observable. -/

/-- A decision-engine answer: the `action` field is free-form text the
orchestrator matches on, plus the proposed tool parameters. -/
structure Decision where
  action : String
  params : List (String × String)

/-- One executed loop iteration, tagged by the dispatched branch.  Every
constructor stands for exactly one decision-engine invocation; the two
call events additionally stand for exactly one tool dispatch. -/
inductive LoopEvent where
  | iterWeather
  | iterActivity
  | iterRespond
  | iterUnknown
deriving Repr, DecidableEq

/-- The weather-branch parameter completion of `agent_loop`: if the engine
proposed no `target_date`, substitute the time context of the intent, defaulting
to "tomorrow". -/
def build_weather_params (params : List (String × String))
    (time_context : Option String) : List (String × String) :=
  if (List.lookup "target_date" params).isNone then
    params ++ [("target_date", time_context.getD "tomorrow")]
  else params

/-- The weather-branch context update inlined in `agent_loop`: overwrite
`weather_data` and append `"weather_api"` to `tools_called`.  Unlike
`add_weather_data` (the refactored accumulator operation), this in-line
revision appends unconditionally. -/
def agent_weather_update {ρ : Type} (context : AgentContext ρ) (result : ρ) :
    AgentContext ρ :=
  { context with
    weather_data := some result,
    tools_called := context.tools_called ++ ["weather_api"] }

/-- The `while context["loop_count"] < context["max_loops"]` loop of
`agent_loop`.  Returns the final context and the trace of executed
iterations.  Each iteration increments the counter, invokes the decision
engine once and dispatches on the returned action: the weather branch calls
the weather tool on the completed parameters and records the result; the
activity branch records the result through the same accumulate-and-append
update as `add_activity_data`; `respond_to_user` and unknown actions break
out of the loop. -/
def agent_loop_run {ρ : Type} (decide_next_action : AgentContext ρ → Decision)
    (weatherTool activityTool : List (String × String) → ρ)
    (ctx : AgentContext ρ) : AgentContext ρ × List LoopEvent :=
  if _h : ctx.loop_count < ctx.max_loops then
    if (decide_next_action (increment_loop_count ctx)).action = "call_weather_api" then
      ((agent_loop_run decide_next_action weatherTool activityTool
          (agent_weather_update (increment_loop_count ctx)
            (weatherTool (build_weather_params
              (decide_next_action (increment_loop_count ctx)).params
              (increment_loop_count ctx).query_analysis.time_context)))).1,
       LoopEvent.iterWeather ::
         (agent_loop_run decide_next_action weatherTool activityTool
          (agent_weather_update (increment_loop_count ctx)
            (weatherTool (build_weather_params
              (decide_next_action (increment_loop_count ctx)).params
              (increment_loop_count ctx).query_analysis.time_context)))).2)
    else if (decide_next_action (increment_loop_count ctx)).action = "call_activity_api" then
      ((agent_loop_run decide_next_action weatherTool activityTool
          (add_activity_data (increment_loop_count ctx)
            (activityTool (decide_next_action (increment_loop_count ctx)).params))).1,
       LoopEvent.iterActivity ::
         (agent_loop_run decide_next_action weatherTool activityTool
          (add_activity_data (increment_loop_count ctx)
            (activityTool (decide_next_action (increment_loop_count ctx)).params))).2)
    else if (decide_next_action (increment_loop_count ctx)).action = "respond_to_user" then
      (increment_loop_count ctx, [LoopEvent.iterRespond])
    else
      (increment_loop_count ctx, [LoopEvent.iterUnknown])
  else (ctx, [])
termination_by ctx.max_loops - ctx.loop_count
decreasing_by
  all_goals simp only [agent_weather_update, add_activity_data, increment_loop_count]
  all_goals omega

/-- `WhatToDoAgent.agent_loop(query)`, up to final response synthesis.
`Sum.inl` is an early error return taken before the loop starts (so no
decision-engine invocation and no tool call has happened and
`tools_called` is still empty); `Sum.inr` carries the context handed to
`generate_final_response` together with the loop trace.  The query
analysis produced by the intent-extraction LLM call is a parameter. -/
def agent_loop {ρ : Type} (decide_next_action : AgentContext ρ → Decision)
    (weatherTool activityTool : List (String × String) → ρ)
    (query : String) (query_analysis : QueryAnalysis) :
    String ⊕ (AgentContext ρ × List LoopEvent) :=
  match query_analysis.error with
  | some e => Sum.inl ("ERROR: " ++ e)
  | none =>
    if pyFalsy query_analysis.location then
      Sum.inl "ERROR: I couldn\x27t determine which location you\x27re asking about. Please specify a city."
    else
      Sum.inr (agent_loop_run decide_next_action weatherTool activityTool
        { query := query, query_analysis := query_analysis, tools_called := [],
          loop_count := 0, max_loops := 5,
          weather_data := none, activity_data := none, activity_data_list := none })

/-- When the decision engine always answers `call_weather_api`, the loop
executes exactly `max_loops - loop_count` further iterations, all weather
dispatches, and ends with the counter at `max_loops`. -/
theorem agent_loop_run_const_weather {ρ : Type}
    (decide_next_action : AgentContext ρ → Decision)
    (weatherTool activityTool : List (String × String) → ρ)
    (hd : ∀ c, (decide_next_action c).action = "call_weather_api") :
    ∀ ctx : AgentContext ρ,
      (agent_loop_run decide_next_action weatherTool activityTool ctx).2
          = List.replicate (ctx.max_loops - ctx.loop_count) LoopEvent.iterWeather ∧
      (agent_loop_run decide_next_action weatherTool activityTool ctx).1.loop_count
          = max ctx.loop_count ctx.max_loops := by
  intro ctx
  induction ctx using agent_loop_run.induct decide_next_action weatherTool activityTool with
  | case1 c h hw ih =>
    obtain ⟨ih2, ih1⟩ := ih
    rw [agent_loop_run, dif_pos h, if_pos hw]
    simp only [increment_loop_count, agent_weather_update, build_weather_params] at ih2 ih1 ⊢
    constructor
    · rw [show c.max_loops - c.loop_count = (c.max_loops - (c.loop_count + 1)) + 1 from by omega,
        List.replicate_succ]
      exact congrArg _ ih2
    · rw [ih1]
      omega
  | case2 c h hnw ha ih => exact absurd (hd _) hnw
  | case3 c h hnw hna hr => exact absurd (hd _) hnw
  | case4 c h hnw hna hnr => exact absurd (hd _) hnw
  | case5 c h =>
    rw [agent_loop_run, dif_neg h]
    constructor
    · rw [show c.max_loops - c.loop_count = 0 from by omega]
      rfl
    · show c.loop_count = max c.loop_count c.max_loops
      omega

/-- C1: with `max_loops = 5` and a decision engine that always returns
`call_weather_api`, the agent loop performs exactly 5 iterations — the
trace is five weather-dispatch events, one decision and one tool dispatch
each, the counter ends at 5, and there is no 6th iteration — after which
control falls through to final response synthesis. -/
theorem agent_loop_five_iterations {ρ : Type}
    (decide_next_action : AgentContext ρ → Decision)
    (weatherTool activityTool : List (String × String) → ρ)
    (ctx : AgentContext ρ)
    (h0 : ctx.loop_count = 0) (h5 : ctx.max_loops = 5)
    (hd : ∀ c, (decide_next_action c).action = "call_weather_api") :
    (agent_loop_run decide_next_action weatherTool activityTool ctx).2
        = List.replicate 5 LoopEvent.iterWeather ∧
    (agent_loop_run decide_next_action weatherTool activityTool ctx).1.loop_count = 5 := by
  obtain ⟨h2, h1⟩ := agent_loop_run_const_weather decide_next_action weatherTool activityTool
    hd ctx
  rw [h0, h5] at h2 h1
  exact ⟨by simpa using h2, by simpa using h1⟩

/-- Witness for C1 at a concrete context and a constant decision engine. -/
theorem agent_loop_five_iterations_witness :
    (agent_loop_run (ρ := Unit) (fun _ => { action := "call_weather_api", params := [] })
        (fun _ => ()) (fun _ => ())
        { query := "What can I do tomorrow in Sydney?",
          query_analysis := { error := none, location := some "Sydney",
                              time_context := some "tomorrow" },
          tools_called := [], loop_count := 0, max_loops := 5,
          weather_data := none, activity_data := none, activity_data_list := none }).2
      = List.replicate 5 LoopEvent.iterWeather ∧
    (agent_loop_run (ρ := Unit) (fun _ => { action := "call_weather_api", params := [] })
        (fun _ => ()) (fun _ => ())
        { query := "What can I do tomorrow in Sydney?",
          query_analysis := { error := none, location := some "Sydney",
                              time_context := some "tomorrow" },
          tools_called := [], loop_count := 0, max_loops := 5,
          weather_data := none, activity_data := none, activity_data_list := none }).1.loop_count
      = 5 :=
  agent_loop_five_iterations _ _ _ _ rfl rfl (fun _ => rfl)

/-- C4: when intent extraction succeeds (`error` absent) but the location is
null, missing or empty, `agent_loop` returns the prompt-for-location error
string before the loop: the `Sum.inl` early return means the loop body was
never entered, no decision-engine invocation occurred and no tool was
called, so `tools_called` is still the empty list it was initialised to;
the validator classifies such an analysis as invalid. -/
theorem missing_location_short_circuit {ρ : Type}
    (decide_next_action : AgentContext ρ → Decision)
    (weatherTool activityTool : List (String × String) → ρ)
    (query : String) (qa : QueryAnalysis)
    (he : qa.error = none) (hl : pyFalsy qa.location = true) :
    agent_loop decide_next_action weatherTool activityTool query qa
      = Sum.inl "ERROR: I couldn\x27t determine which location you\x27re asking about. Please specify a city."
    ∧ (validate_query_analysis qa).valid = false := by
  constructor
  · rw [agent_loop, he]
    simp [hl]
  · rw [validate_query_analysis, if_neg (by simp [he]), if_pos hl]

/-- Witness for C4 at the concrete analysis of a location-free query. -/
theorem missing_location_short_circuit_witness :
    agent_loop (ρ := Unit) (fun _ => { action := "respond_to_user", params := [] })
        (fun _ => ()) (fun _ => ()) "Indoor activities today"
        { error := none, location := none, time_context := some "today" }
      = Sum.inl "ERROR: I couldn\x27t determine which location you\x27re asking about. Please specify a city."
    ∧ (validate_query_analysis
        { error := none, location := none, time_context := some "today" }).valid = false :=
  missing_location_short_circuit _ _ _ "Indoor activities today" _ rfl rfl

/-! ## Tool Gateway (src/mcp_client.py `MCPClient`)

JSON values are embedded as the inductive `JVal`; Python exceptions inside
the `try` block of `call_tool` become `Except.error` values carrying the
exception text, all of which funnel into the single `except` handler that
returns `{"error": f"MCP tool call failed: {e}"}`.  `json.loads` is the
external library parser and is passed in as a function. -/

/-- A JSON value. -/
inductive JVal where
  | null
  | bool (b : Bool)
  | num (n : Int)
  | str (s : String)
  | arr (xs : List JVal)
  | obj (kvs : List (String × JVal))

/-- Key lookup on a JSON object; `none` on any other shape. -/
def JVal.lookup : JVal → String → Option JVal
  | JVal.obj kvs, k => List.lookup k kvs
  | _, _ => none

/-- `{"error": msg}`. -/
def errDict (msg : String) : JVal := JVal.obj [("error", JVal.str msg)]

/-- The Python test `"result" in response_data`: key membership for a dictionary,
element membership for a list, substring test for a string (all of which
return a boolean in Python), and a `TypeError` for the scalar shapes. -/
def pyContainsResult : JVal → Except String Bool
  | JVal.obj kvs => Except.ok (List.lookup "result" kvs).isSome
  | JVal.arr xs => Except.ok (xs.any (fun v =>
      match v with
      | JVal.str s => s == "result"
      | _ => false))
  | JVal.str s => Except.ok ((s.splitOn "result").length > 1)
  | _ => Except.error "TypeError: argument is not iterable"

/-- The nested unwrap `response_data["result"]["content"][0]["text"]`,
expected to reach a string for the second `json.loads`.  Each failing step
is the corresponding Python exception (`KeyError`, `IndexError`,
`TypeError`), whose message lands in the uniform error dictionary; the
exact exception texts are abstracted. -/
def nestedText (resp : JVal) : Except String String :=
  match resp.lookup "result" with
  | none => Except.error "KeyError or TypeError on result"
  | some r =>
    match r.lookup "content" with
    | none => Except.error "KeyError or TypeError on content"
    | some c =>
      match c with
      | JVal.arr items =>
        match items with
        | [] => Except.error "IndexError: list index out of range"
        | item :: _ =>
          match item.lookup "text" with
          | none => Except.error "KeyError or TypeError on text"
          | some t =>
            match t with
            | JVal.str s => Except.ok s
            | _ => Except.error "TypeError: the JSON object must be str"
      | _ => Except.error "TypeError: not subscriptable"

/-- Client state: the subprocess handle (present or not) and the
`_request_id` counter. -/
structure MCPClientState where
  hasProcess : Bool
  request_id : Nat

/-- `MCPClient._get_next_id`: increment the counter and return it. -/
def get_next_id (st : MCPClientState) : Nat × MCPClientState :=
  (st.request_id + 1, { st with request_id := st.request_id + 1 })

/-- A JSON-RPC `tools/call` request as written to the subprocess:
`{"jsonrpc": "2.0", "id": id, "method": method, "params": {"name": name,
"arguments": arguments}}`. -/
structure JsonRpcRequest where
  id : Nat
  method : String
  toolName : String
  arguments : JVal

/-- `MCPClient.call_tool(tool_name, arguments)`.

`jloads` models `json.loads` (`Except.error` is a `JSONDecodeError`);
`read` models the combined transport outcome of `_send_request` plus
the `readline` inside `_read_response` (`Except.error` is a raised transport
exception; an empty line makes `_read_response` raise
`RuntimeError("No response from MCP server")`).  Returns the result
dictionary, the updated client state, and the `tools/call` request that
was created and sent (`none` when the process-missing guard returns
early, before any request is built). -/
def call_tool (jloads : String → Except String JVal) (st : MCPClientState)
    (tool_name : String) (arguments : JVal) (read : Except String String) :
    JVal × MCPClientState × Option JsonRpcRequest :=
  if st.hasProcess = false then
    (errDict "MCP server not started", st, none)
  else
    let idAndSt := get_next_id st
    let req : JsonRpcRequest :=
      { id := idAndSt.1, method := "tools/call",
        toolName := tool_name, arguments := arguments }
    match read with
    | Except.error e =>
      (errDict ("MCP tool call failed: " ++ e), idAndSt.2, some req)
    | Except.ok line =>
      if line = "" then
        (errDict "MCP tool call failed: No response from MCP server", idAndSt.2, some req)
      else
        match jloads line with
        | Except.error e =>
          (errDict ("MCP tool call failed: " ++ e), idAndSt.2, some req)
        | Except.ok resp =>
          match pyContainsResult resp with
          | Except.error e =>
            (errDict ("MCP tool call failed: " ++ e), idAndSt.2, some req)
          | Except.ok false =>
            (JVal.obj [("error", JVal.str "Invalid MCP response"), ("response", resp)],
             idAndSt.2, some req)
          | Except.ok true =>
            match nestedText resp with
            | Except.error e =>
              (errDict ("MCP tool call failed: " ++ e), idAndSt.2, some req)
            | Except.ok txt =>
              match jloads txt with
              | Except.error e =>
                (errDict ("MCP tool call failed: " ++ e), idAndSt.2, some req)
              | Except.ok v => (v, idAndSt.2, some req)

/-- C3: a gateway tool call never raises: for every tool name, argument
mapping, parser behaviour and transport outcome it returns a value, and
that value either carries an `error` field describing the cause, or the
call went down the happy path — a non-empty response line parsed to a
response carrying a `result` field whose nested text payload parsed to
exactly the returned value.  (In the source every other control path is a
`return {"error": ...}` or lands in the single `except` handler.) -/
theorem call_tool_error_or_payload (jloads : String → Except String JVal)
    (st : MCPClientState) (tool_name : String) (arguments : JVal)
    (read : Except String String) :
    ((call_tool jloads st tool_name arguments read).1.lookup "error").isSome = true ∨
    ∃ line resp txt,
      read = Except.ok line ∧ line ≠ "" ∧ jloads line = Except.ok resp ∧
      pyContainsResult resp = Except.ok true ∧ nestedText resp = Except.ok txt ∧
      jloads txt = Except.ok ((call_tool jloads st tool_name arguments read).1) := by
  by_cases hp : st.hasProcess = false
  · exact Or.inl (by simp [call_tool, hp, errDict, JVal.lookup])
  · rcases read with e | line
    · exact Or.inl (by simp [call_tool, hp, errDict, JVal.lookup])
    · by_cases hline : line = ""
      · exact Or.inl (by simp [call_tool, hp, hline, errDict, JVal.lookup])
      · rcases hparse : jloads line with e | resp
        · exact Or.inl (by simp [call_tool, hp, hline, hparse, errDict, JVal.lookup])
        · rcases hcr : pyContainsResult resp with e | b
          · exact Or.inl (by simp [call_tool, hp, hline, hparse, hcr, errDict, JVal.lookup])
          · cases b
            · exact Or.inl (by simp [call_tool, hp, hline, hparse, hcr, JVal.lookup])
            · rcases hnt : nestedText resp with e | txt
              · exact Or.inl (by
                  simp [call_tool, hp, hline, hparse, hcr, hnt, errDict, JVal.lookup])
              · rcases hjt : jloads txt with e | v
                · exact Or.inl (by
                    simp [call_tool, hp, hline, hparse, hcr, hnt, hjt, errDict, JVal.lookup])
                · refine Or.inr ⟨line, resp, txt, rfl, hline, hparse, hcr, hnt, ?_⟩
                  rw [hjt]
                  congr 1
                  simp [call_tool, hp, hline, hparse, hcr, hnt, hjt]

/-- A sequence of `call_tool` invocations against one client instance:
each entry provides the tool name, the arguments and the per-call
transport outcome.  Returns the final state and the `tools/call` requests
actually created, in order. -/
def runCalls (jloads : String → Except String JVal)
    (calls : List (String × JVal × Except String String)) (st : MCPClientState) :
    MCPClientState × List JsonRpcRequest :=
  match calls with
  | [] => (st, [])
  | (n, a, rd) :: rest =>
    ((runCalls jloads rest (call_tool jloads st n a rd).2.1).1,
     (call_tool jloads st n a rd).2.2.toList
       ++ (runCalls jloads rest (call_tool jloads st n a rd).2.1).2)

/-- On the non-early path, `call_tool` advances the state by one
`get_next_id` step and emits exactly the `tools/call` request carrying the
fresh id. -/
theorem call_tool_emits (jloads : String → Except String JVal) (st : MCPClientState)
    (n : String) (a : JVal) (rd : Except String String) (hp : ¬ st.hasProcess = false) :
    (call_tool jloads st n a rd).2.1 = (get_next_id st).2 ∧
    (call_tool jloads st n a rd).2.2
      = some { id := (get_next_id st).1, method := "tools/call",
               toolName := n, arguments := a } := by
  rcases rd with e | line
  · constructor <;> simp [call_tool, hp]
  · by_cases hline : line = ""
    · constructor <;> simp [call_tool, hp, hline]
    · rcases hparse : jloads line with e | resp
      · constructor <;> simp [call_tool, hp, hline, hparse]
      · rcases hcr : pyContainsResult resp with e | b
        · constructor <;> simp [call_tool, hp, hline, hparse, hcr]
        · cases b
          · constructor <;> simp [call_tool, hp, hline, hparse, hcr]
          · rcases hnt : nestedText resp with e | txt
            · constructor <;> simp [call_tool, hp, hline, hparse, hcr, hnt]
            · rcases hjt : jloads txt with e | v
              · constructor <;> simp [call_tool, hp, hline, hparse, hcr, hnt, hjt]
              · constructor <;> simp [call_tool, hp, hline, hparse, hcr, hnt, hjt]

/-- One `call_tool` never decreases the counter, and any request it emits
carries an id strictly above the starting counter and at most the updated
counter. -/
theorem call_tool_id_step (jloads : String → Except String JVal) (st : MCPClientState)
    (n : String) (a : JVal) (rd : Except String String) :
    st.request_id ≤ (call_tool jloads st n a rd).2.1.request_id ∧
    ∀ r ∈ (call_tool jloads st n a rd).2.2.toList,
      st.request_id < r.id ∧ r.id ≤ (call_tool jloads st n a rd).2.1.request_id ∧
      r.method = "tools/call" := by
  by_cases hp : st.hasProcess = false
  · refine ⟨by simp [call_tool, hp], ?_⟩
    intro r hr
    simp [call_tool, hp, Option.toList] at hr
  · obtain ⟨hst, hreq⟩ := call_tool_emits jloads st n a rd hp
    rw [hst, hreq]
    refine ⟨by simp [get_next_id], ?_⟩
    intro r hr
    simp only [Option.toList, List.mem_singleton] at hr
    subst hr
    exact ⟨by simp [get_next_id], by simp [get_next_id], rfl⟩

/-- Requests emitted by a call sequence have ids strictly above the
starting counter and at most the final counter, the counter never
decreases, every request is a `tools/call`, and the ids are pairwise
strictly increasing in emission order. -/
theorem runCalls_ids (jloads : String → Except String JVal)
    (calls : List (String × JVal × Except String String)) :
    ∀ st : MCPClientState,
      st.request_id ≤ (runCalls jloads calls st).1.request_id ∧
      (∀ r ∈ (runCalls jloads calls st).2,
        st.request_id < r.id ∧ r.id ≤ (runCalls jloads calls st).1.request_id ∧
        r.method = "tools/call") ∧
      (runCalls jloads calls st).2.Pairwise (fun r₁ r₂ => r₁.id < r₂.id) := by
  induction calls with
  | nil =>
    intro st
    refine ⟨Nat.le_refl _, ⟨?_, List.Pairwise.nil⟩⟩
    intro r hr
    cases hr
  | cons c rest ih =>
    intro st
    obtain ⟨n, a, rd⟩ := c
    obtain ⟨hmono, hr0⟩ := call_tool_id_step jloads st n a rd
    obtain ⟨hmono2, hmem, hpw⟩ := ih (call_tool jloads st n a rd).2.1
    refine ⟨Nat.le_trans hmono hmono2, ⟨?_, ?_⟩⟩
    · intro r hr
      rcases List.mem_append.mp hr with hr | hr
      · obtain ⟨h1, h2, h3⟩ := hr0 r hr
        exact ⟨h1, Nat.le_trans h2 hmono2, h3⟩
      · obtain ⟨h1, h2, h3⟩ := hmem r hr
        exact ⟨Nat.lt_of_le_of_lt hmono h1, h2, h3⟩
    · refine List.pairwise_append.mpr ⟨?_, hpw, ?_⟩
      · cases (call_tool jloads st n a rd).2.2 with
        | none => exact List.Pairwise.nil
        | some req =>
          refine List.pairwise_cons.mpr ⟨?_, List.Pairwise.nil⟩
          intro r hr
          cases hr
      · intro r₁ h₁ r₂ h₂
        obtain ⟨_, hle, _⟩ := hr0 r₁ h₁
        obtain ⟨hgt, _, _⟩ := hmem r₂ h₂
        exact Nat.lt_of_le_of_lt hle hgt

/-- C9: across any sequence of tool calls sent through one gateway
instance, the ids carried by the emitted `tools/call` requests are
strictly monotonically increasing — the id of each request is greater than the
id of every previously sent request. -/
theorem request_ids_strictly_increasing (jloads : String → Except String JVal)
    (calls : List (String × JVal × Except String String)) (st : MCPClientState) :
    (runCalls jloads calls st).2.Pairwise (fun r₁ r₂ => r₁.id < r₂.id) ∧
    ∀ r ∈ (runCalls jloads calls st).2, r.method = "tools/call" :=
  ⟨(runCalls_ids jloads calls st).2.2,
   fun r hr => ((runCalls_ids jloads calls st).2.1 r hr).2.2⟩

/-! ## Activity tool (src/tools/activity_tool.py `activity_api_tool`,
duplicated in src/mcp_server.py)

The Foursquare search (`FoursquareClient.search_places`, a network call
with randomised variety) is a function parameter mapping
(location, resolved type, category filter) to the list of places it
returned.  The argument dictionary of the tool is embedded with `Option` fields
for the optional keys. -/

/-- The Python substring test `sub in s`. -/
def strContains (sub s : String) : Bool :=
  (List.range (s.length + 1)).any (fun i => List.isPrefixOf sub.data (s.data.drop i))

/-- The argument dictionary of a tool call; `none` models a missing key. -/
structure ActivityArgs where
  location : Option String
  weather_condition : Option String
  activity_type : Option String
  category : Option String

/-- The weather keywords that force an indoor resolution of
`activity_type = "both"`. -/
def bad_weather : List String := ["rain", "storm", "snow", "drizzle", "shower"]

/-- The weather keywords that force an outdoor resolution of
`activity_type = "both"`. -/
def good_weather : List String := ["sunny", "clear", "fair"]

/-- `activity_api_tool(arguments)`, with the Foursquare client abstracted:
`search location resolved_type category` is the list
`search_places(location, resolved_type, category, variety=True)` returned.
The pure embedding always takes the success return of the `try` block — the
`except` branch (`{"success": false, ...}`) is unreachable without a
raising collaborator. -/
def activity_api_tool (search : String → String → Option String → List Activity)
    (arguments : ActivityArgs) : ActivityResult :=
  let location := arguments.location.getD ""
  let weather_condition := pyLower (arguments.weather_condition.getD "")
  let activity_type := arguments.activity_type.getD "both"
  let category := arguments.category
  let resolved_type :=
    if activity_type = "both" then
      if bad_weather.any (fun word => strContains word weather_condition) then "indoor"
      else if good_weather.any (fun word => strContains word weather_condition) then "outdoor"
      else activity_type
    else activity_type
  let activities :=
    if resolved_type = "indoor" ∨ resolved_type = "outdoor" then
      search location resolved_type category
    else if resolved_type = "both" then
      (search location "indoor" category).take 4 ++ (search location "outdoor" category).take 4
    else []
  { success := true,
    error := none,
    location := location,
    query_parameters :=
      { weather_condition := weather_condition,
        requested_activity_type := activity_type,
        resolved_activity_type := resolved_type,
        category_filter := category },
    activities := activities.take 8,
    total_results := (activities.take 8).length,
    data_source := if activities.isEmpty then "none" else "foursquare" }

-- sanity: in "both" weather-free mode with large search results, the
-- response is capped at 8 with a consistent count
example :
    (activity_api_tool
      (fun _ t _ => List.replicate 6 ⟨t, "c", "d", none, "s"⟩)
      { location := some "Sydney", weather_condition := none,
        activity_type := some "both", category := none }).total_results = 8 := by
  decide

/-- C10: for every argument mapping and every behaviour of the underlying
place search, the success result of the activity tool is internally consistent:
`total_results` equals the length of its `activities` list, and that list
has at most 8 entries — also in the "both" branch that gathers up to 4
indoor plus 4 outdoor places, and also when the search returns more than 8
places. -/
theorem activity_tool_total_results_invariant
    (search : String → String → Option String → List Activity)
    (arguments : ActivityArgs) :
    (activity_api_tool search arguments).success = true ∧
    (activity_api_tool search arguments).total_results
      = (activity_api_tool search arguments).activities.length ∧
    (activity_api_tool search arguments).activities.length ≤ 8 := by
  refine ⟨rfl, rfl, ?_⟩
  show (List.take 8 _).length ≤ 8
  exact List.length_take_le 8 _

end WhatToDo
